import Mathlib

/-!
Shallow embedding of the fitness-tracker server (src/server/keep-alive.js)
and of the client webhook-normalization helper
(src/fitness-tracker/src/lib/supabase.ts, sendToWebhook).

Conventions of the embedding:
- JavaScript values carried in request bodies are modelled with Option types;
  `none` stands for an absent (undefined) field.
- JavaScript truthiness is modelled explicitly where the code relies on it
  (empty string and the number 0 are falsy).
- Timestamps produced by `new Date().toISOString()` are modelled by an opaque
  `now : String` argument threaded into each handler; the textual rendering of
  dates is not itself modelled.
- The in-memory workout collection plus its id counter form `WorkoutStore`;
  the mirror-to-file step (saveWorkouts) has no observable effect on the data
  model and is not modelled.
- The Stripe API surface used by the server (customers.retrieve,
  customers.list by email, customers.create, customers.update of
  metadata.userId, subscriptions.list filtered by status with a page limit,
  subscriptions.cancel, checkout.sessions.create) is modelled as pure
  functions over a `StripeState` record.  Network failures other than the
  resource_missing case the code handles are out of scope.
-/

/-! ## JSON values and the analysis-response normalization -/

/-- JSON values as delivered by the external analysis webhook.  Numbers are
modelled as integers (the claims involve only integers). -/
inductive JVal where
  | str (s : String)
  | num (n : Int)
  | jbool (b : Bool)
  | null
  | arr (xs : List JVal)
  | obj (fields : List (String × JVal))
deriving Repr

/-- Escape of a single character inside a JSON string literal, mirroring
JSON.stringify.  Control characters other than newline, tab and carriage
return do not occur in any input considered here. -/
def escapeChar (c : Char) : String :=
  if c = '"' then "\\\""
  else if c = '\\' then "\\\\"
  else if c = '\n' then "\\n"
  else if c = '\t' then "\\t"
  else if c = '\r' then "\\r"
  else String.singleton c

/-- JSON string literal rendering, mirroring JSON.stringify on strings. -/
def quoteJson (s : String) : String :=
  "\"" ++ String.join (s.toList.map escapeChar) ++ "\""

mutual

/-- Model of JSON.stringify as used by the fallback branch of the
analysis-response normalization. -/
def stringify : JVal → String
  | .str s => quoteJson s
  | .num n => toString n
  | .jbool b => if b then "true" else "false"
  | .null => "null"
  | .arr xs => "[" ++ stringifyArr xs ++ "]"
  | .obj fs => "\x7b" ++ stringifyObj fs ++ "\x7d"

/-- Comma-separated rendering of a JSON array body. -/
def stringifyArr : List JVal → String
  | [] => ""
  | [x] => stringify x
  | x :: xs => stringify x ++ "," ++ stringifyArr xs

/-- Comma-separated rendering of a JSON object body. -/
def stringifyObj : List (String × JVal) → String
  | [] => ""
  | [(k, v)] => quoteJson k ++ ":" ++ stringify v
  | (k, v) :: fs => quoteJson k ++ ":" ++ stringify v ++ "," ++ stringifyObj fs

end

/-- JavaScript truthiness of a JSON value: empty string, zero, false and null
are falsy; arrays and objects are always truthy. -/
def truthy : JVal → Bool
  | .str s => !s.isEmpty
  | .num n => n != 0
  | .jbool b => b
  | .null => false
  | .arr _ => true
  | .obj _ => true

/-- First binding of a key in a JSON object field list. -/
def lookupField (fs : List (String × JVal)) (k : String) : Option JVal :=
  match fs with
  | [] => none
  | (k2, v) :: rest => if k2 = k then some v else lookupField rest k

/-- JavaScript property access `d[k]`: on null it throws a TypeError
(modelled as the error case, which the surrounding try/catch turns into a
500 response); on an object it yields the field; on every other non-null
value it yields undefined (`none`). -/
def jsGet (d : JVal) (k : String) : Except Unit (Option JVal) :=
  match d with
  | .null => .error ()
  | .obj fs => .ok (lookupField fs k)
  | _ => .ok none

/-- Property access on a value known to be non-null: the field for objects,
undefined otherwise.  Used only to state the scan-order characterization of
the throwing access for non-null inputs. -/
def fieldOrUndefined (d : JVal) (k : String) : Option JVal :=
  match d with
  | .obj fs => lookupField fs k
  | _ => none

/-- The ordered candidate field names scanned by the normalization
(`possibleFields` in keep-alive.js and supabase.ts). -/
def possibleFields : List String := ["output", "result", "response", "message", "analysis"]

/-- The for-loop of the normalization: take the first listed field whose
value is present and truthy (`if (data[field])` with break), propagating a
thrown TypeError. -/
def pickField (d : JVal) : List String → Except Unit (Option JVal)
  | [] => .ok none
  | f :: rest =>
    match jsGet d f with
    | .error e => .error e
    | .ok (some v) => if truthy v then .ok (some v) else pickField d rest
    | .ok none => pickField d rest

/-- Fallback tail of the normalization: candidate-field scan, then
JSON.stringify of the whole response, propagating a thrown TypeError. -/
def extractFallback (data : JVal) : Except Unit JVal :=
  match pickField data possibleFields with
  | .error e => .error e
  | .ok (some v) => .ok v
  | .ok none => .ok (.str (stringify data))

/-- Analysis-response normalization shared by POST /api/ai-analysis
(keep-alive.js) and sendToWebhook (supabase.ts): a bare string is the answer;
otherwise the access `data.data` runs (throwing on a top-level null, which
the handler converts into a 500 — the error case) and a truthy data field is
the answer; otherwise the first truthy candidate field; otherwise
JSON.stringify of the whole response. -/
def extractAnalysis (data : JVal) : Except Unit JVal :=
  match data with
  | .str s => .ok (.str s)
  | _ =>
    match jsGet data "data" with
    | .error e => .error e
    | .ok (some v) => if truthy v then .ok v else extractFallback data
    | .ok none => extractFallback data

/-! ## Workout store (file-backed collection in keep-alive.js) -/

/-- A stored workout record, exactly the fields assembled by
POST /api/workouts plus the update timestamp added by PUT. -/
structure Workout where
  id : Nat
  user_id : String
  type : String
  duration : Int
  calories : Int
  notes : Option String
  ai_analysis : Option String
  created_at : String
  updated_at : Option String
deriving Repr, DecidableEq

/-- The in-memory state: the workouts array and the nextWorkoutId counter. -/
structure WorkoutStore where
  workouts : List Workout
  nextWorkoutId : Nat
deriving Repr, DecidableEq

/-- GET /api/workouts/:userId — filter the collection by owning user id. -/
def getWorkouts (st : WorkoutStore) (userId : String) : List Workout :=
  st.workouts.filter (fun w => w.user_id == userId)

/-- Request body of POST /api/workouts; `none` is an absent field. -/
structure CreateBody where
  user_id : Option String
  type : Option String
  duration : Option Int
  calories : Option Int
  notes : Option String
  ai_analysis : Option String
deriving Repr, DecidableEq

/-- JavaScript truthiness of an optional string (absent and empty are falsy). -/
def strTruthy : Option String → Bool
  | some s => !s.isEmpty
  | none => false

/-- JavaScript truthiness of an optional number (absent and 0 are falsy). -/
def intTruthy : Option Int → Bool
  | some n => n != 0
  | none => false

/-- The `x || null` coercion applied to notes and ai_analysis on create. -/
def orNull : Option String → Option String
  | some s => if s.isEmpty then none else some s
  | none => none

/-- Outcome of POST /api/workouts. -/
inductive CreateResult where
  | badRequest
  | created (w : Workout)
deriving Repr, DecidableEq

/-- POST /api/workouts: validates
`!user_id || !type || !duration || calories === undefined`, then stores a
record under the next fresh id and bumps the counter. -/
def createWorkout (st : WorkoutStore) (now : String) (b : CreateBody) :
    CreateResult × WorkoutStore :=
  if !strTruthy b.user_id || !strTruthy b.type || !intTruthy b.duration || b.calories.isNone then
    (.badRequest, st)
  else
    let w : Workout :=
      { id := st.nextWorkoutId
        user_id := b.user_id.getD ""
        type := b.type.getD ""
        duration := b.duration.getD 0
        calories := b.calories.getD 0
        notes := orNull b.notes
        ai_analysis := orNull b.ai_analysis
        created_at := now
        updated_at := none }
    (.created w, { workouts := st.workouts ++ [w], nextWorkoutId := st.nextWorkoutId + 1 })

/-- Request body of PUT /api/workouts/:id.  For notes and ai_analysis the
code distinguishes undefined (keep the old value) from an explicit value
including null, so those fields are doubly optional: `none` is undefined,
`some none` is JSON null, `some (some s)` is a string. -/
structure UpdateBody where
  user_id : Option String
  type : Option String
  duration : Option Int
  calories : Option Int
  notes : Option (Option String)
  ai_analysis : Option (Option String)
deriving Repr, DecidableEq

/-- Outcome of PUT /api/workouts/:id. -/
inductive UpdateResult where
  | notFound
  | updated (w : Workout)
deriving Repr, DecidableEq

/-- The ownership predicate of PUT and DELETE:
`w.id === Number(id) && w.user_id === user_id` (a strict comparison against
an absent user_id never matches). -/
def matchesIdAndUser (idParam : Nat) (uid : Option String) (w : Workout) : Bool :=
  w.id == idParam && some w.user_id == uid

/-- PUT /api/workouts/:id: find the row owned by the requester, merge the
provided fields over it (type by truthiness, the rest by definedness), stamp
updated_at, and write it back in place. -/
def updateWorkout (st : WorkoutStore) (now : String) (idParam : Nat) (b : UpdateBody) :
    UpdateResult × WorkoutStore :=
  match st.workouts.findIdx? (matchesIdAndUser idParam b.user_id) with
  | none => (.notFound, st)
  | some i =>
    match st.workouts[i]? with
    | none => (.notFound, st)
    | some old =>
      let w : Workout :=
        { old with
          type := match b.type with
                  | some s => if s.isEmpty then old.type else s
                  | none => old.type
          duration := b.duration.getD old.duration
          calories := b.calories.getD old.calories
          notes := match b.notes with | some v => v | none => old.notes
          ai_analysis := match b.ai_analysis with | some v => v | none => old.ai_analysis
          updated_at := some now }
      (.updated w, { st with workouts := st.workouts.set i w })

/-- Outcome of DELETE /api/workouts/:id. -/
inductive DeleteResult where
  | notFound
  | deleted
deriving Repr, DecidableEq

/-- DELETE /api/workouts/:id?user_id=… : find the row owned by the requester
and splice it out. -/
def deleteWorkout (st : WorkoutStore) (idParam : Nat) (uid : Option String) :
    DeleteResult × WorkoutStore :=
  match st.workouts.findIdx? (matchesIdAndUser idParam uid) with
  | none => (.notFound, st)
  | some i => (.deleted, { st with workouts := st.workouts.eraseIdx i })

/-! ## Stripe model (billing state seen through the API calls the server makes) -/

/-- A billing customer: id, email, and the owner tag metadata.userId
(`none` when the metadata carries no userId). -/
structure StripeCustomer where
  id : String
  email : Option String
  metadataUserId : Option String
deriving Repr, DecidableEq

/-- A subscription: its customer, its status string, and the details the
server surfaces (price id, billing interval, current period end as a raw
epoch number; the ISO rendering of the date is not modelled). -/
structure StripeSubscription where
  id : String
  customer : String
  status : String
  priceId : String
  interval : String
  currentPeriodEnd : Nat
deriving Repr, DecidableEq

/-- A hosted checkout session as created by checkout.sessions.create. -/
structure CheckoutSession where
  id : String
  customer : String
  priceId : String
deriving Repr, DecidableEq

/-- The provider-side state the server interacts with, plus a counter used
to mint fresh ids. -/
structure StripeState where
  customers : List StripeCustomer
  subscriptions : List StripeSubscription
  checkoutSessions : List CheckoutSession
  nextId : Nat
deriving Repr, DecidableEq

/-- stripe.customers.retrieve: `none` models the resource_missing error. -/
def customersRetrieve (st : StripeState) (cid : String) : Option StripeCustomer :=
  st.customers.find? (fun c => c.id == cid)

/-- stripe.customers.list filtered by email with a page limit. -/
def customersListByEmail (st : StripeState) (email : String) (limit : Nat) :
    List StripeCustomer :=
  (st.customers.filter (fun c => c.email == some email)).take limit

/-- stripe.subscriptions.list filtered by customer and status with a page
limit. -/
def subscriptionsList (st : StripeState) (cid status : String) (limit : Nat) :
    List StripeSubscription :=
  (st.subscriptions.filter (fun s => s.customer == cid && s.status == status)).take limit

/-- stripe.subscriptions.cancel: the subscription moves to status canceled. -/
def subscriptionsCancel (st : StripeState) (sid : String) : StripeState :=
  { st with subscriptions :=
      st.subscriptions.map (fun s => if s.id == sid then { s with status := "canceled" } else s) }

/-- stripe.customers.update setting metadata.userId. -/
def customersUpdateMeta (st : StripeState) (cid uid : String) : StripeState :=
  { st with customers :=
      st.customers.map (fun c => if c.id == cid then { c with metadataUserId := some uid } else c) }

/-- stripe.customers.create with an owner tag and an email; the id is minted
from the fresh-id counter. -/
def customersCreate (st : StripeState) (email uid : String) :
    StripeCustomer × StripeState :=
  let c : StripeCustomer :=
    { id := "cus_" ++ toString st.nextId, email := some email, metadataUserId := some uid }
  (c, { st with customers := st.customers ++ [c], nextId := st.nextId + 1 })

/-! ## Subscription endpoints -/

/-- The details block surfaced when a subscription check succeeds. -/
structure SubscriptionDetails where
  priceId : String
  interval : String
  currentPeriodEnd : Nat
deriving Repr, DecidableEq

/-- JSON response of GET /check-subscription/:customerId/:userId.
`clearData` is true exactly when the handler includes clearData: true. -/
structure CheckResponse where
  isSubscribed : Bool
  subscriptionDetails : Option SubscriptionDetails
  clearData : Bool
  errorMsg : Option String
deriving Repr, DecidableEq

/-- GET /check-subscription/:customerId/:userId (owner-validated variant):
format sniff, retrieve, owner validation, then the active-subscription list
(no page limit) decides isSubscribed and the surfaced details. -/
def checkSubscription (st : StripeState) (customerId userId : String) : CheckResponse :=
  if customerId == userId || (customerId.length == 36 && customerId.contains '-') then
    { isSubscribed := false, subscriptionDetails := none, clearData := true
      errorMsg := some "Invalid customer ID format" }
  else
    match customersRetrieve st customerId with
    | none =>
      { isSubscribed := false, subscriptionDetails := none, clearData := true
        errorMsg := some "Customer not found" }
    | some customer =>
      if customer.metadataUserId != some userId then
        { isSubscribed := false, subscriptionDetails := none, clearData := false
          errorMsg := none }
      else
        match st.subscriptions.filter (fun s => s.customer == customerId && s.status == "active") with
        | [] =>
          { isSubscribed := false, subscriptionDetails := none, clearData := false
            errorMsg := none }
        | s :: _ =>
          { isSubscribed := true
            subscriptionDetails := some
              { priceId := s.priceId, interval := s.interval
                currentPeriodEnd := s.currentPeriodEnd }
            clearData := false, errorMsg := none }

/-- JSON response of POST /cancel-subscription/:customerId/:userId. -/
structure CancelResponse where
  httpStatus : Nat
  success : Bool
  clearData : Bool
deriving Repr, DecidableEq

/-- POST /cancel-subscription/:customerId/:userId (owner-validated variant):
retrieve, owner validation, then list active subscriptions with limit 1 and
cancel each listed one; zero active subscriptions still reports success. -/
def cancelSubscription (st : StripeState) (customerId userId : String) :
    CancelResponse × StripeState :=
  match customersRetrieve st customerId with
  | none => ({ httpStatus := 404, success := false, clearData := true }, st)
  | some customer =>
    if customer.metadataUserId != some userId then
      ({ httpStatus := 403, success := false, clearData := false }, st)
    else
      match subscriptionsList st customerId "active" 1 with
      | [] => ({ httpStatus := 200, success := true, clearData := false }, st)
      | subs =>
        let st2 := subs.foldl (fun acc s => subscriptionsCancel acc s.id) st
        ({ httpStatus := 200, success := true, clearData := false }, st2)

/-- JSON response of POST /find-customer-by-email. -/
inductive FindCustomerResponse where
  | badRequest
  | ok (customerId : Option String)
deriving Repr, DecidableEq

/-- The scan loop of POST /find-customer-by-email: in list order, a customer
already tagged with the user id is returned as is; otherwise a customer with
any active subscription is retagged with the user id and returned. -/
def findCustomerScan (st : StripeState) (userId : String) :
    List StripeCustomer → FindCustomerResponse × StripeState
  | [] => (.ok none, st)
  | c :: rest =>
    if c.metadataUserId == some userId then
      (.ok (some c.id), st)
    else if !(subscriptionsList st c.id "active" 1).isEmpty then
      (.ok (some c.id), customersUpdateMeta st c.id userId)
    else
      findCustomerScan st userId rest

/-- POST /find-customer-by-email: validate the body, list up to 10 customers
matching the email, and scan them. -/
def findCustomerByEmail (st : StripeState) (email userId : String) :
    FindCustomerResponse × StripeState :=
  if email.isEmpty || userId.isEmpty then (.badRequest, st)
  else findCustomerScan st userId (customersListByEmail st email 10)

/-- JSON response of POST /create-checkout-session. -/
structure CheckoutResponse where
  httpStatus : Nat
  sessionId : Option String
  customerId : Option String
  errorMsg : Option String
deriving Repr, DecidableEq

/-- POST /create-checkout-session: reuse the first customer listed for the
email (refreshing a stale owner tag) or create a fresh one; reject with 400
when that customer already has an active subscription; otherwise create a
hosted checkout session. -/
def createCheckoutSession (st : StripeState) (priceId userId email : String) :
    CheckoutResponse × StripeState :=
  let found :=
    match customersListByEmail st email 1 with
    | c :: _ =>
      if c.metadataUserId != some userId then
        ({ c with metadataUserId := some userId }, customersUpdateMeta st c.id userId)
      else (c, st)
    | [] => customersCreate st email userId
  let customer := found.1
  let st1 := found.2
  if !(subscriptionsList st1 customer.id "active" 1).isEmpty then
    ({ httpStatus := 400, sessionId := none, customerId := none
       errorMsg := some "You already have an active subscription." }, st1)
  else
    let session : CheckoutSession :=
      { id := "cs_" ++ toString st1.nextId, customer := customer.id, priceId := priceId }
    ({ httpStatus := 200, sessionId := some session.id, customerId := some customer.id
       errorMsg := none },
     { st1 with checkoutSessions := st1.checkoutSessions ++ [session], nextId := st1.nextId + 1 })

/-! ## Webhook receiver -/

/-- A Stripe event as far as the handler inspects it. -/
structure StripeEvent where
  type : String
deriving Repr, DecidableEq

/-- JSON response of POST /webhook. -/
structure WebhookResponse where
  httpStatus : Nat
  received : Bool
deriving Repr, DecidableEq

/-- stripe.webhooks.constructEvent, parameterized by the signature scheme
(verifySig body sig secret) and the payload parser: it yields an event
exactly when a signature header is present and verifies. -/
def constructEvent (verifySig : String → String → String → Bool)
    (parseEvent : String → StripeEvent) (body : String) (sig : Option String)
    (secret : String) : Option StripeEvent :=
  match sig with
  | none => none
  | some s => if verifySig body s secret then some (parseEvent body) else none

/-- POST /webhook: construct the event from the raw body and the
stripe-signature header; failure is a 400 with no processing, success is
acknowledged with received: true.  The third component is the event the
handler processed (none when no event was ever processed); the handler only
observes recognized events, so the state passes through unchanged. -/
def webhookHandler (verifySig : String → String → String → Bool)
    (parseEvent : String → StripeEvent) (st : StripeState) (body : String)
    (sig : Option String) (secret : String) :
    WebhookResponse × StripeState × Option StripeEvent :=
  match constructEvent verifySig parseEvent body sig secret with
  | none => ({ httpStatus := 400, received := false }, st, none)
  | some ev => ({ httpStatus := 200, received := true }, st, some ev)

/-! ## Specification-side definitions used to compare against the code -/

/-- Modelled from the spec wording for find-customer-by-email: a customer is
eligible when it is already tagged with the user id or has any active
subscription. -/
def eligibleCustomer (st : StripeState) (uid : String) (c : StripeCustomer) : Bool :=
  c.metadataUserId == some uid || !(subscriptionsList st c.id "active" 1).isEmpty

/-! ## Sample states used as concrete witnesses and counterexamples -/

/-- Billing state with one customer owned by user_1 holding one active
subscription. -/
def sampleCheckState : StripeState :=
  { customers := [{ id := "cus_a", email := some "a@x.com", metadataUserId := some "user_1" }]
    subscriptions := [{ id := "sub_1", customer := "cus_a", status := "active"
                        priceId := "price_a", interval := "month", currentPeriodEnd := 5 }]
    checkoutSessions := [], nextId := 1 }

/-- Workout store with a single workout owned by alice. -/
def sampleMismatchStore : WorkoutStore :=
  { workouts := [{ id := 1, user_id := "alice", type := "run", duration := 30, calories := 300
                   notes := none, ai_analysis := none, created_at := "t0", updated_at := none }]
    nextWorkoutId := 2 }

/-- Workout store holding one workout of alice and one of bob. -/
def sampleListStore : WorkoutStore :=
  { workouts := [
      { id := 1, user_id := "alice", type := "run", duration := 30, calories := 300
        notes := none, ai_analysis := none, created_at := "t0", updated_at := none },
      { id := 2, user_id := "bob", type := "row", duration := 20, calories := 150
        notes := none, ai_analysis := none, created_at := "t1", updated_at := none }]
    nextWorkoutId := 3 }

/-- Billing state where one customer holds two active subscriptions, the
invariant-violating case the cancel claim talks about. -/
def sampleDoubleSubState : StripeState :=
  { customers := [{ id := "cus_b", email := some "b@x.com", metadataUserId := some "user_1" }]
    subscriptions := [
      { id := "sub_1", customer := "cus_b", status := "active"
        priceId := "price_1", interval := "month", currentPeriodEnd := 0 },
      { id := "sub_2", customer := "cus_b", status := "active"
        priceId := "price_2", interval := "month", currentPeriodEnd := 0 }]
    checkoutSessions := [], nextId := 1 }

/-- Empty workout store as on first server start. -/
def sampleEmptyStore : WorkoutStore := { workouts := [], nextWorkoutId := 1 }

/-- Billing state where the first customer listed for the email has an active
subscription but belongs to another user, while the second is already tagged
with the requesting user. -/
def sampleRecoveryState : StripeState :=
  { customers := [
      { id := "cus_s", email := some "e@x.com", metadataUserId := some "other_user" },
      { id := "cus_t", email := some "e@x.com", metadataUserId := some "user_1" }]
    subscriptions := [{ id := "sub_s", customer := "cus_s", status := "active"
                        priceId := "price_s", interval := "month", currentPeriodEnd := 0 }]
    checkoutSessions := [], nextId := 1 }

/-- Billing state for the checkout claim: the customer found by email already
has an active subscription. -/
def sampleCheckoutState : StripeState :=
  { customers := [{ id := "cus_c", email := some "c@x.com", metadataUserId := some "user_1" }]
    subscriptions := [{ id := "sub_c", customer := "cus_c", status := "active"
                        priceId := "price_c", interval := "month", currentPeriodEnd := 0 }]
    checkoutSessions := [], nextId := 1 }

/-- Empty billing state used by the webhook witness. -/
def sampleWebhookState : StripeState :=
  { customers := [], subscriptions := [], checkoutSessions := [], nextId := 1 }

/-- Workout store used by the update frame witness. -/
def sampleFrameStore : WorkoutStore :=
  { workouts := [
      { id := 1, user_id := "alice", type := "run", duration := 30, calories := 300
        notes := none, ai_analysis := none, created_at := "t0", updated_at := none },
      { id := 2, user_id := "alice", type := "row", duration := 20, calories := 150
        notes := none, ai_analysis := none, created_at := "t1", updated_at := none }]
    nextWorkoutId := 3 }

/-! ## Theorems -/

/-- C2: an update or delete request whose (id, userId) pair matches no stored
workout fails with NotFound and leaves the workout store completely
unchanged. -/
theorem workouts_mismatch_not_found (st : WorkoutStore) (now : String) (idp : Nat)
    (b : UpdateBody)
    (h : ∀ w ∈ st.workouts, ¬(w.id = idp ∧ some w.user_id = b.user_id)) :
    updateWorkout st now idp b = (.notFound, st) ∧
    deleteWorkout st idp b.user_id = (.notFound, st) := by
  have hidx : st.workouts.findIdx? (matchesIdAndUser idp b.user_id) = none := by
    rw [List.findIdx?_eq_none_iff]
    intro w hw
    have hnot := h w hw
    cases h1 : (w.id == idp) with
    | false => simp [matchesIdAndUser, h1]
    | true =>
      cases h2 : (some w.user_id == b.user_id) with
      | false => simp [matchesIdAndUser, h1, h2]
      | true => exact absurd ⟨by simpa using h1, by simpa using h2⟩ hnot
  constructor
  · simp [updateWorkout, hidx]
  · simp [deleteWorkout, hidx]

/-- Witness for C2: updating or deleting workout 1 of alice as bob fails with
NotFound and changes nothing. -/
theorem workouts_mismatch_not_found_witness :
    updateWorkout sampleMismatchStore "t1" 1
      { user_id := some "bob", type := none, duration := none, calories := none
        notes := none, ai_analysis := none } = (.notFound, sampleMismatchStore) ∧
    deleteWorkout sampleMismatchStore 1 (some "bob") = (.notFound, sampleMismatchStore) :=
  workouts_mismatch_not_found sampleMismatchStore "t1" 1 _ (by decide)

/-- C3: the workout listing for a user returns exactly the stored workouts
owned by that user id, so a workout of user A never appears in the listing of
a different user B. -/
theorem getWorkouts_ownership (st : WorkoutStore) (uid : String) :
    (∀ w, w ∈ getWorkouts st uid ↔ w ∈ st.workouts ∧ w.user_id = uid) ∧
    (∀ a b2 : String, a ≠ b2 → ∀ w ∈ st.workouts, w.user_id = a → w ∉ getWorkouts st b2) := by
  constructor
  · intro w
    simp [getWorkouts, List.mem_filter]
  · intro a b2 hab w hw hwa hmem
    have : w ∈ st.workouts ∧ w.user_id = b2 := by
      simpa [getWorkouts, List.mem_filter] using hmem
    exact hab (hwa ▸ this.2)

/-- Witness for C3: a workout of alice is not in the listing of bob. -/
theorem getWorkouts_ownership_witness :
    ({ id := 1, user_id := "alice", type := "run", duration := 30, calories := 300
       notes := none, ai_analysis := none, created_at := "t0", updated_at := none } : Workout)
      ∉ getWorkouts sampleListStore "bob" :=
  (getWorkouts_ownership sampleListStore "bob").2 "alice" "bob" (by decide) _
    (by decide) rfl

/-- C5: workout creation fails with 400 when type, duration or calories is
missing; on the example input (type run, duration 30, calories 300) it stores
and returns a record with the fresh counter id (positive and distinct from
all stored ids), the submitted numbers unchanged, the creation timestamp, and
null notes and ai_analysis. -/
theorem createWorkout_spec (st : WorkoutStore) (now : String) (b : CreateBody) (uid : String) :
    ((b.type = none ∨ b.duration = none ∨ b.calories = none) →
      createWorkout st now b = (.badRequest, st)) ∧
    (uid ≠ "" → 0 < st.nextWorkoutId → (∀ w2 ∈ st.workouts, w2.id < st.nextWorkoutId) →
      ∃ w, createWorkout st now
          { user_id := some uid, type := some "run", duration := some 30
            calories := some 300, notes := none, ai_analysis := none } =
          (.created w,
           { workouts := st.workouts ++ [w], nextWorkoutId := st.nextWorkoutId + 1 }) ∧
        0 < w.id ∧ (∀ w2 ∈ st.workouts, w2.id ≠ w.id) ∧
        w.duration = 30 ∧ w.calories = 300 ∧ w.created_at = now ∧
        w.notes = none ∧ w.ai_analysis = none) := by
  constructor
  · rintro (h | h | h) <;> simp [createWorkout, h, strTruthy, intTruthy]
  · intro huid hpos hfresh
    refine ⟨{ id := st.nextWorkoutId, user_id := uid, type := "run", duration := 30
              calories := 300, notes := none, ai_analysis := none
              created_at := now, updated_at := none }, ?_, hpos, ?_, rfl, rfl, rfl, rfl, rfl⟩
    · have hne : uid.isEmpty = false := by
        cases he : uid.isEmpty
        · rfl
        · exact absurd ((String.isEmpty_iff uid).mp he) huid
      simp [createWorkout, strTruthy, intTruthy, orNull, hne]
      decide
    · intro w2 hw2
      exact Nat.ne_of_lt (hfresh w2 hw2)

/-- Witness for C5: on the empty store a request missing type is rejected,
and the example request stores the expected record. -/
theorem createWorkout_spec_witness :
    (createWorkout sampleEmptyStore "t0"
        { user_id := some "user_1", type := none, duration := some 30
          calories := some 300, notes := none, ai_analysis := none } =
      (.badRequest, sampleEmptyStore)) ∧
    (∃ w, createWorkout sampleEmptyStore "t0"
        { user_id := some "user_1", type := some "run", duration := some 30
          calories := some 300, notes := none, ai_analysis := none } =
        (.created w,
         { workouts := sampleEmptyStore.workouts ++ [w]
           nextWorkoutId := sampleEmptyStore.nextWorkoutId + 1 }) ∧
      0 < w.id ∧ (∀ w2 ∈ sampleEmptyStore.workouts, w2.id ≠ w.id) ∧
      w.duration = 30 ∧ w.calories = 300 ∧ w.created_at = "t0" ∧
      w.notes = none ∧ w.ai_analysis = none) :=
  ⟨(createWorkout_spec sampleEmptyStore "t0" _ "user_1").1 (Or.inl rfl),
   (createWorkout_spec sampleEmptyStore "t0"
      { user_id := some "user_1", type := none, duration := some 30
        calories := some 300, notes := none, ai_analysis := none } "user_1").2
     (by decide) (by decide) (by intro w2 hw2; cases hw2)⟩

/-- C10: a successful update keeps the id, user id and creation timestamp of
the pre-update record, writes the merged record back in place, keeps the id
counter, and leaves every other position of the store unchanged. -/
theorem updateWorkout_frame (st : WorkoutStore) (now : String) (idp : Nat) (b : UpdateBody)
    (j : Nat) (old : Workout)
    (hj : st.workouts.findIdx? (matchesIdAndUser idp b.user_id) = some j)
    (ho : st.workouts[j]? = some old) :
    ∃ w, updateWorkout st now idp b =
        (.updated w, { workouts := st.workouts.set j w, nextWorkoutId := st.nextWorkoutId }) ∧
      w.id = old.id ∧ w.user_id = old.user_id ∧ w.created_at = old.created_at ∧
      (∀ k, k ≠ j → (st.workouts.set j w)[k]? = st.workouts[k]?) := by
  refine ⟨{ old with
      type := match b.type with | some s => if s.isEmpty then old.type else s | none => old.type
      duration := b.duration.getD old.duration
      calories := b.calories.getD old.calories
      notes := match b.notes with | some v => v | none => old.notes
      ai_analysis := match b.ai_analysis with | some v => v | none => old.ai_analysis
      updated_at := some now }, ?_, rfl, rfl, rfl, ?_⟩
  · simp [updateWorkout, hj, ho]
  · intro k hk
    exact List.getElem?_set_ne (Ne.symm hk)

/-- Witness for C10: updating workout 1 of alice in a two-workout store. -/
theorem updateWorkout_frame_witness :
    ∃ w, updateWorkout sampleFrameStore "t2" 1
        { user_id := some "alice", type := some "swim", duration := some 40, calories := none
          notes := none, ai_analysis := none } =
        (.updated w, { workouts := sampleFrameStore.workouts.set 0 w
                       nextWorkoutId := sampleFrameStore.nextWorkoutId }) ∧
      w.id = 1 ∧ w.user_id = "alice" ∧ w.created_at = "t0" ∧
      (∀ k, k ≠ 0 → (sampleFrameStore.workouts.set 0 w)[k]? = sampleFrameStore.workouts[k]?) :=
  updateWorkout_frame sampleFrameStore "t2" 1 _ 0 _ (by decide) rfl

/-- Property access on a non-null value never throws and agrees with the
total field lookup. -/
theorem jsGet_ne_null (d : JVal) (k : String) (hd : d ≠ .null) :
    jsGet d k = .ok (fieldOrUndefined d k) := by
  cases d with
  | null => exact absurd rfl hd
  | str s => rfl
  | num n => rfl
  | jbool b2 => rfl
  | arr xs => rfl
  | obj fs => rfl

/-- Counterexample for C7: on the object with a falsy data field (value 0)
the normalization does not return the value of the data field; it falls
through to the JSON serialization of the whole response. -/
theorem extractAnalysis_falsy_data_counterexample :
    jsGet (JVal.obj [("data", JVal.num 0)]) "data" = .ok (some (JVal.num 0)) ∧
    extractAnalysis (JVal.obj [("data", JVal.num 0)]) =
      .ok (JVal.str "\x7b\"data\":0\x7d") ∧
    extractAnalysis (JVal.obj [("data", JVal.num 0)]) ≠ .ok (JVal.num 0) := by
  refine ⟨rfl, rfl, ?_⟩
  intro h
  rw [show extractAnalysis (JVal.obj [("data", JVal.num 0)]) =
      Except.ok (JVal.str "\x7b\"data\":0\x7d") from rfl] at h
  exact JVal.noConfusion (Except.ok.inj h)

/-- C7 (amended): the normalization returns a bare string unchanged; a
top-level null response makes the property access throw, so the handler
errors (500) and never returns a normalized value; otherwise the value of
the field named data when it is present with a truthy value; otherwise the
candidate-field scan, which takes the first field in order whose value is
present and truthy, and serializes the whole response when none is; the four
example inputs behave as the claim lists. -/
theorem extractAnalysis_chain :
    (∀ s, extractAnalysis (.str s) = .ok (.str s)) ∧
    (extractAnalysis .null = .error ()) ∧
    (∀ d v, (∀ s, d ≠ .str s) → jsGet d "data" = .ok (some v) → truthy v = true →
      extractAnalysis d = .ok v) ∧
    (∀ d, (∀ s, d ≠ .str s) → d ≠ .null →
      (∀ v, jsGet d "data" = .ok (some v) → truthy v = false) →
      extractAnalysis d = extractFallback d) ∧
    (∀ d fields, d ≠ .null → pickField d fields =
      .ok ((fields.filterMap (fun f => Option.filter truthy (fieldOrUndefined d f))).head?)) ∧
    (∀ d v, pickField d possibleFields = .ok (some v) → extractFallback d = .ok v) ∧
    (∀ d, pickField d possibleFields = .ok none →
      extractFallback d = .ok (.str (stringify d))) ∧
    extractAnalysis (.obj [("data", .str "x")]) = .ok (.str "x") ∧
    extractAnalysis (.obj [("output", .str "y")]) = .ok (.str "y") ∧
    extractAnalysis (.str "z") = .ok (.str "z") ∧
    extractAnalysis (.obj [("unrelated", .num 1)]) =
      .ok (.str (stringify (.obj [("unrelated", .num 1)]))) := by
  refine ⟨fun s => rfl, rfl, ?_, ?_, ?_, ?_, ?_, rfl, rfl, rfl, rfl⟩
  · intro d v hns hf ht
    cases d with
    | str s => exact absurd rfl (hns s)
    | num n => exact Option.noConfusion (Except.ok.inj hf)
    | jbool b2 => exact Option.noConfusion (Except.ok.inj hf)
    | null => exact Except.noConfusion hf
    | arr xs => exact Option.noConfusion (Except.ok.inj hf)
    | obj fs =>
      simp only [extractAnalysis]
      rw [hf]
      simp [ht]
  · intro d hns hnull hfalsy
    cases d with
    | str s => exact absurd rfl (hns s)
    | num n => rfl
    | jbool b2 => rfl
    | null => exact absurd rfl hnull
    | arr xs => rfl
    | obj fs =>
      cases hf : jsGet (JVal.obj fs) "data" with
      | error e => simp [jsGet] at hf
      | ok o =>
        cases o with
        | none =>
          simp only [extractAnalysis]
          rw [hf]
        | some v =>
          have hfv := hfalsy v hf
          simp only [extractAnalysis]
          rw [hf]
          simp [hfv]
  · intro d fields hd
    induction fields with
    | nil => rfl
    | cons f rest ih =>
      have hj := jsGet_ne_null d f hd
      cases hf : fieldOrUndefined d f with
      | none =>
        rw [hf] at hj
        have h1 : pickField d (f :: rest) = pickField d rest := by
          simp [pickField, hj]
        rw [h1, ih]
        simp [List.filterMap_cons, hf, Option.filter]
      | some v =>
        rw [hf] at hj
        cases ht : truthy v with
        | false =>
          have h1 : pickField d (f :: rest) = pickField d rest := by
            simp [pickField, hj, ht]
          rw [h1, ih]
          simp [List.filterMap_cons, hf, Option.filter, ht]
        | true =>
          have h1 : pickField d (f :: rest) = .ok (some v) := by
            simp [pickField, hj, ht]
          rw [h1]
          simp [List.filterMap_cons, hf, Option.filter, ht]
  · intro d v hp
    simp [extractFallback, hp]
  · intro d hp
    simp [extractFallback, hp]

/-- Witness for C7: a truthy data field is returned directly. -/
theorem extractAnalysis_chain_witness :
    extractAnalysis (JVal.obj [("data", JVal.str "x")]) = .ok (JVal.str "x") :=
  extractAnalysis_chain.2.2.1 (JVal.obj [("data", JVal.str "x")]) (JVal.str "x")
    (fun _s h => JVal.noConfusion h) rfl rfl

/-- Counterexample for C1: for an existing customer owned by user_1, a check
requested by user_2 returns a response without the clearData signal, contrary
to the claim that an owner mismatch also carries clearData. -/
theorem checkSubscription_mismatch_counterexample :
    (∃ c, customersRetrieve sampleCheckState "cus_a" = some c ∧
      c.metadataUserId ≠ some "user_2") ∧
    (checkSubscription sampleCheckState "cus_a" "user_2").clearData = false := by
  refine ⟨⟨{ id := "cus_a", email := some "a@x.com", metadataUserId := some "user_1" },
    by decide, by decide⟩, rfl⟩

/-- C1 (amended): when the tagged owner id of an existing customer differs
from the requesting user id the check reports not-subscribed with no
subscription details, and (outside the format-sniff branch) without the
clearData signal; clearData accompanies the not-subscribed response exactly
in the customer-does-not-exist case. -/
theorem checkSubscription_auth_boundary (st : StripeState) (cid uid : String) :
    (∀ c, customersRetrieve st cid = some c → c.metadataUserId ≠ some uid →
      (checkSubscription st cid uid).isSubscribed = false ∧
      (checkSubscription st cid uid).subscriptionDetails = none ∧
      (¬(cid = uid ∨ (cid.length = 36 ∧ cid.contains '-' = true)) →
        (checkSubscription st cid uid).clearData = false)) ∧
    (customersRetrieve st cid = none →
      (checkSubscription st cid uid).isSubscribed = false ∧
      (checkSubscription st cid uid).subscriptionDetails = none ∧
      (checkSubscription st cid uid).clearData = true) := by
  by_cases hfmt : (cid == uid || (cid.length == 36 && cid.contains '-')) = true
  · constructor
    · intro c _ _
      refine ⟨by simp [checkSubscription, hfmt], by simp [checkSubscription, hfmt], ?_⟩
      intro hn
      exact absurd (by simpa using hfmt) hn
    · intro _
      refine ⟨by simp [checkSubscription, hfmt], by simp [checkSubscription, hfmt],
        by simp [checkSubscription, hfmt]⟩
  · have hfmt2 : (cid == uid || (cid.length == 36 && cid.contains '-')) = false :=
      Bool.not_eq_true _ ▸ (Bool.eq_false_iff.mpr (fun h => hfmt h))
    constructor
    · intro c hc hm
      have hbne : (c.metadataUserId != some uid) = true := by
        simpa using hm
      refine ⟨?_, ?_, fun _ => ?_⟩ <;>
        simp [checkSubscription, hfmt2, hc, hbne]
    · intro hc
      refine ⟨?_, ?_, ?_⟩ <;> simp [checkSubscription, hfmt2, hc]

/-- Witness for C1: the boundary applied to the sample mismatch request. -/
theorem checkSubscription_auth_boundary_witness :
    (checkSubscription sampleCheckState "cus_a" "user_2").isSubscribed = false ∧
    (checkSubscription sampleCheckState "cus_a" "user_2").clearData = false := by
  have h := (checkSubscription_auth_boundary sampleCheckState "cus_a" "user_2").1
    { id := "cus_a", email := some "a@x.com", metadataUserId := some "user_1" }
    (by decide) (by decide)
  exact ⟨h.1, h.2.2 (by decide)⟩

/-- Cancelling subscriptions never touches the customer list. -/
theorem foldl_cancel_customers (subs : List StripeSubscription) (st : StripeState) :
    (subs.foldl (fun acc s => subscriptionsCancel acc s.id) st).customers = st.customers := by
  induction subs generalizing st with
  | nil => rfl
  | cons s rest ih => simpa [List.foldl, subscriptionsCancel] using ih (subscriptionsCancel st s.id)

/-- The cancel endpoint never changes the customer list. -/
theorem cancelSubscription_customers (st : StripeState) (cid uid : String) :
    ((cancelSubscription st cid uid).2).customers = st.customers := by
  unfold cancelSubscription
  cases hc : customersRetrieve st cid with
  | none => rfl
  | some c =>
    by_cases hm : (c.metadataUserId != some uid) = true
    · simp [hm]
    · have hm2 : (c.metadataUserId != some uid) = false := by
        cases h2 : (c.metadataUserId != some uid)
        · rfl
        · exact absurd h2 hm
      cases hs : subscriptionsList st cid "active" 1 with
      | nil => simp [hm2, hs]
      | cons s rest =>
        simp only [hm2, Bool.false_eq_true, if_false, hs]
        exact foldl_cancel_customers (s :: rest) st

/-- A one-element page: the tail of take 1 is empty. -/
theorem take_one_tail_nil {α : Type} (l : List α) (a : α) (r : List α)
    (h : l.take 1 = a :: r) : r = [] := by
  cases l with
  | nil => exact absurd h (by simp)
  | cons x t =>
    simp [List.take] at h
    exact h.2

/-- Counterexample for C4: on the owned customer with two active
subscriptions the cancel endpoint reports success while one active
subscription is still left, so it does not cancel every currently active
subscription. -/
theorem cancelSubscription_leaves_second_active :
    (cancelSubscription sampleDoubleSubState "cus_b" "user_1").1.success = true ∧
    ((cancelSubscription sampleDoubleSubState "cus_b" "user_1").2.subscriptions.filter
        (fun s => s.customer == "cus_b" && s.status == "active")).length = 1 := by
  decide

/-- C4 (amended): once the customer exists and ownership validation passes,
cancel reports success (HTTP 200), a second consecutive call also reports
success, zero active subscriptions leave the state unchanged, and otherwise
exactly the first subscription of the limit-1 active page is cancelled. -/
theorem cancelSubscription_behavior (st : StripeState) (cid uid : String) (c : StripeCustomer)
    (hc : customersRetrieve st cid = some c) (hm : c.metadataUserId = some uid) :
    (cancelSubscription st cid uid).1.success = true ∧
    (cancelSubscription st cid uid).1.httpStatus = 200 ∧
    (cancelSubscription (cancelSubscription st cid uid).2 cid uid).1.success = true ∧
    (subscriptionsList st cid "active" 1 = [] → (cancelSubscription st cid uid).2 = st) ∧
    (∀ s rest, subscriptionsList st cid "active" 1 = s :: rest →
      (cancelSubscription st cid uid).2 = subscriptionsCancel st s.id) := by
  have hbne : (c.metadataUserId != some uid) = false := by simp [hm]
  have hsucc : ∀ st2 : StripeState, customersRetrieve st2 cid = some c →
      (cancelSubscription st2 cid uid).1.success = true ∧
      (cancelSubscription st2 cid uid).1.httpStatus = 200 := by
    intro st2 hc2
    unfold cancelSubscription
    rw [hc2]
    cases hs : subscriptionsList st2 cid "active" 1 with
    | nil => simp [hbne, hs]
    | cons s rest => simp [hbne, hs]
  have h1 := hsucc st hc
  have hc2 : customersRetrieve (cancelSubscription st cid uid).2 cid = some c := by
    unfold customersRetrieve
    rw [cancelSubscription_customers]
    exact hc
  refine ⟨h1.1, h1.2, (hsucc _ hc2).1, ?_, ?_⟩
  · intro hs
    unfold cancelSubscription
    rw [hc, hs]
    simp [hbne]
  · intro s rest hs
    have hrest : rest = [] := take_one_tail_nil _ _ _ hs
    subst hrest
    unfold cancelSubscription
    rw [hc, hs]
    simp [hbne]

/-- Witness for C4: both consecutive cancel calls on the double-subscription
state succeed. -/
theorem cancelSubscription_behavior_witness :
    (cancelSubscription sampleDoubleSubState "cus_b" "user_1").1.success = true ∧
    (cancelSubscription
      (cancelSubscription sampleDoubleSubState "cus_b" "user_1").2 "cus_b" "user_1").1.success
      = true := by
  have h := cancelSubscription_behavior sampleDoubleSubState "cus_b" "user_1"
    { id := "cus_b", email := some "b@x.com", metadataUserId := some "user_1" }
    (by decide) rfl
  exact ⟨h.1, h.2.2.1⟩

/-- The scan loop returns the first eligible customer in list order,
retagging it when it was not already tagged. -/
theorem findCustomerScan_spec (st : StripeState) (uid : String) (l : List StripeCustomer) :
    findCustomerScan st uid l =
      match l.find? (eligibleCustomer st uid) with
      | none => (.ok none, st)
      | some c => (.ok (some c.id),
          if c.metadataUserId == some uid then st else customersUpdateMeta st c.id uid) := by
  induction l with
  | nil => rfl
  | cons c rest ih =>
    by_cases h1 : (c.metadataUserId == some uid) = true
    · simp [findCustomerScan, List.find?, eligibleCustomer, h1]
    · have h1f : (c.metadataUserId == some uid) = false := by
        cases hx : (c.metadataUserId == some uid)
        · rfl
        · exact absurd hx h1
      by_cases h2 : (!(subscriptionsList st c.id "active" 1).isEmpty) = true
      · simp [findCustomerScan, List.find?, eligibleCustomer, h1f, h2]
      · have h2f : (!(subscriptionsList st c.id "active" 1).isEmpty) = false := by
          cases hx : (!(subscriptionsList st c.id "active" 1).isEmpty)
          · rfl
          · exact absurd hx h2
        simp [findCustomerScan, List.find?, eligibleCustomer, h1f, h2f, ih]

/-- Counterexample for C6: the email-matched list holds a customer already
tagged with the requesting user, yet the endpoint returns a different
customer (the earlier one that merely has an active subscription), contrary
to the claimed tagged-first priority. -/
theorem findCustomerByEmail_order_counterexample :
    (findCustomerByEmail sampleRecoveryState "e@x.com" "user_1").1 = .ok (some "cus_s") ∧
    ((customersListByEmail sampleRecoveryState "e@x.com" 10).any
        (fun c => c.metadataUserId == some "user_1" && c.id != "cus_s")) = true := by
  decide

/-- C6 (amended): on a valid request the endpoint performs one interleaved
scan in list order over the first ten customers matching the email and
returns the first customer that is either already tagged with the user id or
has an active subscription, retagging that customer exactly when it was not
already tagged; it returns customerId null, leaving the state unchanged,
when no customer qualifies. -/
theorem findCustomerByEmail_scan_order (st : StripeState) (email uid : String)
    (he : email ≠ "") (hu : uid ≠ "") :
    ((findCustomerByEmail st email uid).1 =
      .ok (((customersListByEmail st email 10).find? (eligibleCustomer st uid)).map
        (fun c => c.id))) ∧
    (((customersListByEmail st email 10).find? (eligibleCustomer st uid)) = none →
      (findCustomerByEmail st email uid).2 = st) ∧
    (∀ c, ((customersListByEmail st email 10).find? (eligibleCustomer st uid)) = some c →
      (findCustomerByEmail st email uid).2 =
        (if c.metadataUserId == some uid then st else customersUpdateMeta st c.id uid)) := by
  have hee : email.isEmpty = false := by
    cases hx : email.isEmpty
    · rfl
    · exact absurd ((String.isEmpty_iff email).mp hx) he
  have huu : uid.isEmpty = false := by
    cases hx : uid.isEmpty
    · rfl
    · exact absurd ((String.isEmpty_iff uid).mp hx) hu
  have hmain : findCustomerByEmail st email uid =
      match (customersListByEmail st email 10).find? (eligibleCustomer st uid) with
      | none => (.ok none, st)
      | some c => (.ok (some c.id),
          if c.metadataUserId == some uid then st else customersUpdateMeta st c.id uid) := by
    unfold findCustomerByEmail
    rw [hee, huu]
    simp only [Bool.or_self, Bool.false_eq_true, if_false]
    exact findCustomerScan_spec st uid (customersListByEmail st email 10)
  refine ⟨?_, ?_, ?_⟩
  · cases hf : (customersListByEmail st email 10).find? (eligibleCustomer st uid) with
    | none => rw [hmain, hf]; rfl
    | some c => rw [hmain, hf]; rfl
  · intro hf
    rw [hmain, hf]
  · intro c hf
    rw [hmain, hf]

/-- Witness for C6: on the sample recovery state the scan returns the first
active-subscription customer and retags it. -/
theorem findCustomerByEmail_scan_order_witness :
    (findCustomerByEmail sampleRecoveryState "e@x.com" "user_1").1 = .ok (some "cus_s") ∧
    (findCustomerByEmail sampleRecoveryState "e@x.com" "user_1").2 =
      customersUpdateMeta sampleRecoveryState "cus_s" "user_1" := by
  have h := findCustomerByEmail_scan_order sampleRecoveryState "e@x.com" "user_1"
    (by decide) (by decide)
  constructor
  · rw [h.1]; decide
  · have h2 := h.2.2
      { id := "cus_s", email := some "e@x.com", metadataUserId := some "other_user" }
      (by decide)
    rw [h2]; decide

/-- C8: when the customer resolved for the email already has an active
subscription, the checkout endpoint answers 400 with no session handle and
neither creates a checkout session nor touches any subscription. -/
theorem createCheckoutSession_rejects_active (st : StripeState) (priceId uid email : String)
    (c : StripeCustomer) (hc : (customersListByEmail st email 1).head? = some c)
    (hs : (subscriptionsList st c.id "active" 1).isEmpty = false) :
    (createCheckoutSession st priceId uid email).1.httpStatus = 400 ∧
    (createCheckoutSession st priceId uid email).1.sessionId = none ∧
    (createCheckoutSession st priceId uid email).2.checkoutSessions = st.checkoutSessions ∧
    (createCheckoutSession st priceId uid email).2.subscriptions = st.subscriptions := by
  obtain ⟨rest, hl⟩ : ∃ rest, customersListByEmail st email 1 = c :: rest := by
    cases hx : customersListByEmail st email 1 with
    | nil => rw [hx] at hc; exact absurd hc (by simp)
    | cons a t =>
      rw [hx] at hc
      simp at hc
      exact ⟨t, by rw [hc]⟩
  unfold createCheckoutSession
  rw [hl]
  by_cases hm : (c.metadataUserId != some uid) = true
  · have hsl : subscriptionsList (customersUpdateMeta st c.id uid)
        ({ c with metadataUserId := some uid } : StripeCustomer).id "active" 1 =
        subscriptionsList st c.id "active" 1 := rfl
    simp only [hm, if_true, hsl, hs, Bool.not_false, if_true]
    exact ⟨trivial, trivial, rfl, rfl⟩
  · have hm2 : (c.metadataUserId != some uid) = false := by
      cases hx : (c.metadataUserId != some uid)
      · rfl
      · exact absurd hx hm
    simp only [hm2, Bool.false_eq_true, if_false, hs, Bool.not_false, if_true]
    exact ⟨trivial, trivial, trivial, trivial⟩

/-- Witness for C8: the sample customer with an active subscription is
rejected with 400 and no session. -/
theorem createCheckoutSession_rejects_active_witness :
    (createCheckoutSession sampleCheckoutState "price_x" "user_1" "c@x.com").1.httpStatus = 400 ∧
    (createCheckoutSession sampleCheckoutState "price_x" "user_1" "c@x.com").1.sessionId = none ∧
    (createCheckoutSession sampleCheckoutState "price_x" "user_1" "c@x.com").2.checkoutSessions =
      sampleCheckoutState.checkoutSessions ∧
    (createCheckoutSession sampleCheckoutState "price_x" "user_1" "c@x.com").2.subscriptions =
      sampleCheckoutState.subscriptions :=
  createCheckoutSession_rejects_active sampleCheckoutState "price_x" "user_1" "c@x.com"
    { id := "cus_c", email := some "c@x.com", metadataUserId := some "user_1" }
    (by decide) (by decide)

/-- C9: for every signature scheme, a payload whose stripe-signature header
is absent or fails verification is answered 400, leaves the state unchanged
and processes no event; conversely whenever an event was processed the
signature verified and the response acknowledges with received true and an
unchanged state. -/
theorem webhookHandler_signature_gate (verifySig : String → String → String → Bool)
    (parseEvent : String → StripeEvent) (st : StripeState) (body secret : String)
    (sig : Option String) :
    ((∀ s, sig = some s → verifySig body s secret = false) →
      webhookHandler verifySig parseEvent st body sig secret =
        ({ httpStatus := 400, received := false }, st, none)) ∧
    (∀ resp st2 ev, webhookHandler verifySig parseEvent st body sig secret = (resp, st2, some ev) →
      ∃ s, sig = some s ∧ verifySig body s secret = true ∧
        resp = { httpStatus := 200, received := true } ∧ st2 = st) := by
  constructor
  · intro hbad
    cases sig with
    | none => rfl
    | some s =>
      have := hbad s rfl
      simp [webhookHandler, constructEvent, this]
  · intro resp st2 ev hrun
    cases sig with
    | none => exact absurd hrun (by simp [webhookHandler, constructEvent])
    | some s =>
      cases hv : verifySig body s secret with
      | false => exact absurd hrun (by simp [webhookHandler, constructEvent, hv])
      | true =>
        refine ⟨s, rfl, hv, ?_, ?_⟩ <;>
          · simp [webhookHandler, constructEvent, hv] at hrun
            simp [hrun.1.symm, hrun.2.1.symm]

/-- Witness for C9: a rejecting signature scheme yields the 400 response with
no state change and no processed event. -/
theorem webhookHandler_signature_gate_witness :
    webhookHandler (fun _ _ _ => false) (fun b2 => { type := b2 }) sampleWebhookState
      "payload" (some "bad-signature") "secret" =
      ({ httpStatus := 400, received := false }, sampleWebhookState, none) :=
  (webhookHandler_signature_gate (fun _ _ _ => false) (fun b2 => { type := b2 })
    sampleWebhookState "payload" "secret" (some "bad-signature")).1
    (fun _ _ => rfl)
